import Mathlib

/-
Verification development for the events-api-backend repository: a CRUD HTTP
API for an events table with two variants, an ORM one (src/app.py over
src/models/events.py) and a raw-SQL one (src/mysql_raw/app_mysql.py).
Both variants are shallowly embedded as pure state-passing functions over the
same table state; request bodies are modelled as optional association lists of
string keys to JSON string-or-null values, and each handler returns the HTTP
status, the JSON response shape, the resulting table state and the list of
storage operations it performed.
-/

namespace EventsApi

/-- A calendar date-time, the embedding of a Python datetime value restricted
to the fields the fixed pattern YYYY-MM-DD HH:MM:SS carries. -/
structure DateTime where
  year : Nat
  month : Nat
  day : Nat
  hour : Nat
  minute : Nat
  second : Nat
deriving DecidableEq

/-- Gregorian leap-year test, as used by Python datetime for day-of-month
validation. -/
def isLeap (y : Nat) : Bool :=
  (y % 4 == 0 && y % 100 != 0) || y % 400 == 0

/-- Number of days in a month, as enforced by the Python datetime
constructor. -/
def daysInMonth (y m : Nat) : Nat :=
  if m = 2 then (if isLeap y then 29 else 28)
  else if m = 4 ∨ m = 6 ∨ m = 9 ∨ m = 11 then 30
  else 31

/-- The decimal digit character for a value below ten (values ten and above
never arise from the modulo-ten extractions that call this). -/
def digitChar (n : Nat) : Char :=
  match n with
  | 0 => '0'
  | 1 => '1'
  | 2 => '2'
  | 3 => '3'
  | 4 => '4'
  | 5 => '5'
  | 6 => '6'
  | 7 => '7'
  | 8 => '8'
  | _ => '9'

/-- Numeric value of a decimal digit character. -/
def charVal (c : Char) : Nat := c.toNat - 48

/-- Two-digit zero-padded decimal rendering, as strftime writes with the
patterns for month, day, hour, minute and second. -/
def pad2 (n : Nat) : List Char := [digitChar (n / 10 % 10), digitChar (n % 10)]

/-- Four-digit zero-padded decimal rendering of the year field. -/
def pad4 (n : Nat) : List Char :=
  [digitChar (n / 1000 % 10), digitChar (n / 100 % 10),
   digitChar (n / 10 % 10), digitChar (n % 10)]

/-- Character sequence strftime produces for the pattern
YYYY-MM-DD HH:MM:SS, right-nested for ease of reasoning. -/
def dtChars (d : DateTime) : List Char :=
  pad4 d.year ++ '-' :: (pad2 d.month ++ '-' :: (pad2 d.day ++
    ' ' :: (pad2 d.hour ++ ':' :: (pad2 d.minute ++ ':' :: pad2 d.second))))

/-- Embedding of datetime.strftime with the fixed pattern used throughout the
repository. -/
def formatDateTime (d : DateTime) : String := String.mk (dtChars d)

/-- Splits a character list into its leading run of decimal digits and the
rest, the way the strptime regular expression consumes a numeric field. -/
def splitDigits (cs : List Char) : List Char × List Char :=
  (cs.takeWhile Char.isDigit, cs.dropWhile Char.isDigit)

/-- Value of a list of decimal digit characters. -/
def digitsVal (ds : List Char) : Nat :=
  ds.foldl (fun a c => 10 * a + charVal c) 0

/-- Reads the four-digit year field: strptime requires exactly four digits
for the year pattern. -/
def readYear (cs : List Char) : Option (Nat × List Char) :=
  match cs with
  | a :: b :: c :: d :: rest =>
    if a.isDigit && b.isDigit && c.isDigit && d.isDigit then
      some (digitsVal [a, b, c, d], rest)
    else none
  | _ => none

/-- Reads a one- or two-digit numeric field (month, day, hour, minute or
second); in this format every such field is followed by a non-digit
separator or the end of input, so the strptime regular expression with
backtracking accepts exactly the digit runs of length one or two. -/
def readNum2 (cs : List Char) : Option (Nat × List Char) :=
  match splitDigits cs with
  | (ds, rest) =>
    if ds.length = 1 ∨ ds.length = 2 then some (digitsVal ds, rest) else none

/-- Consumes one expected literal separator character. -/
def expect (c : Char) : List Char → Option (List Char)
  | x :: rest => if x = c then some rest else none
  | [] => none

/-- Embedding of datetime.strptime with the fixed pattern
YYYY-MM-DD HH:MM:SS: four-digit year, one-or-two-digit other fields, the
literal separators, no trailing input, and the range checks the regular
expression and the datetime constructor impose (month 1-12, day 1 to the
length of the month, hour below 24, minute and second below 60, year at
least one). -/
def parseDateTime (s : String) : Option DateTime := do
  let (y, r0) ← readYear s.data
  let r1 ← expect '-' r0
  let (mo, r2) ← readNum2 r1
  let r3 ← expect '-' r2
  let (dy, r4) ← readNum2 r3
  let r5 ← expect ' ' r4
  let (h, r6) ← readNum2 r5
  let r7 ← expect ':' r6
  let (mi, r8) ← readNum2 r7
  let r9 ← expect ':' r8
  let (se, r10) ← readNum2 r9
  if r10 = [] ∧ 1 ≤ y ∧ 1 ≤ mo ∧ mo ≤ 12 ∧ 1 ≤ dy ∧ dy ≤ daysInMonth y mo ∧
      h ≤ 23 ∧ mi ≤ 59 ∧ se ≤ 59 then
    some ⟨y, mo, dy, h, mi, se⟩
  else none

/-- Model of the external MySQL server parsing a literal bound to a DATETIME
column (the raw-SQL variant hands request strings straight to the database):
a full date-time literal in the canonical format is stored as such, a
date-only literal YYYY-MM-DD is stored with a midnight time part, and any
other string is rejected, which the handlers surface as a 500 error. -/
def mysqlParseDate (s : String) : Option DateTime :=
  (parseDateTime s).orElse (fun _ => parseDateTime (s ++ " 00:00:00"))

/-- Range validity of a date-time record: exactly the values strptime can
produce, and the domain on which formatting then reparsing is the
identity. -/
def ValidDate (d : DateTime) : Prop :=
  1 ≤ d.year ∧ d.year ≤ 9999 ∧ 1 ≤ d.month ∧ d.month ≤ 12 ∧
  1 ≤ d.day ∧ d.day ≤ daysInMonth d.year d.month ∧
  d.hour ≤ 23 ∧ d.minute ≤ 59 ∧ d.second ≤ 59

instance (d : DateTime) : Decidable (ValidDate d) := by
  unfold ValidDate
  exact inferInstance

/-- A JSON scalar value in a request body: the repository only ever reads
string-valued fields, so the embedding models each supplied field as either
a JSON string or JSON null. -/
inductive JVal where
  | str (s : String)
  | null
deriving DecidableEq

/-- A parsed JSON object body: an association list from keys to values.
Python dict keys are unique, so lookups take the first binding. -/
def Body := List (String × JVal)

instance : DecidableEq Body := by
  unfold Body
  exact inferInstance

/-- Value of a key in a body, the embedding of a dict subscript or get. -/
def getKey (b : Body) (k : String) : Option JVal :=
  (b.find? (fun p => p.1 == k)).map (fun p => p.2)

/-- Key-membership test, the embedding of the Python in operator on a
dict. -/
def hasKey (b : Body) (k : String) : Bool := (getKey b k).isSome

/-- A JSON string-or-null value as an optional string (none for null). -/
def jv2o : JVal → Option String
  | JVal.str s => some s
  | JVal.null => none

/-- A stored row of the events table. The nullable column types are optional
so that the NOT NULL constraints of the schema are facts to prove, not
assumptions of the embedding; created_at is always server-assigned. -/
structure EventRow where
  id : Nat
  title : Option String
  description : Option String
  event_date : Option DateTime
  location : Option String
  created_at : DateTime
deriving DecidableEq

/-- The events table plus the auto-increment counter. -/
structure DBState where
  rows : List EventRow
  nextId : Nat
deriving DecidableEq

/-- The freshly created empty table. -/
def emptyDB : DBState := { rows := [], nextId := 1 }

/-- Lookup of a row by primary key, the embedding of Event.query.get and of
SELECT by id. -/
def findRow (st : DBState) (id : Nat) : Option EventRow :=
  st.rows.find? (fun r => r.id == id)

/-- Replaces the rows with the given primary key, the embedding of an ORM
commit of a mutated object and of UPDATE WHERE id. -/
def replaceRows (rows : List EventRow) (id : Nat) (r : EventRow) :
    List EventRow :=
  rows.map (fun x => if x.id == id then r else x)

/-- The NOT NULL constraints of the events schema (title, event_date and
location are declared non-nullable; description is nullable): an insert or
update that would store null in a constrained column fails. -/
def rowNullFree (r : EventRow) : Bool :=
  r.title.isSome && r.event_date.isSome && r.location.isSome

/-- A date value as it appears in a JSON response: either a literal string
(an echoed request string or a strftime rendering) or a Python datetime
object left to the JSON encoder of the framework, which serializes it in a
different textual form than the fixed pattern. -/
inductive DateOut where
  | lit (s : String)
  | pyDateTime (d : DateTime)
deriving DecidableEq

/-- An event record inside a JSON response. For id and created_at, none
models the key being absent (the raw-SQL creation and update responses) or
a null value; for the other optional fields none models JSON null. -/
structure EventJson where
  id : Option Nat
  title : Option String
  description : Option String
  event_date : Option DateOut
  location : Option String
  created_at : Option DateOut
deriving DecidableEq

/-- The JSON shapes the handlers return. -/
inductive Resp where
  | errJson (msg : String)
  | msgJson (msg : String)
  | createdJson (msg : String) (event_id : Nat) (event : EventJson)
  | updatedJson (msg : String) (event_id : Nat) (updated_event : EventJson)
  | eventJson (event : EventJson)
  | eventsJson (events : List EventJson)
deriving DecidableEq

/-- A storage operation performed by a handler, for the ordering properties
of validation versus persistence. -/
inductive StorageOp where
  | read
  | write
deriving DecidableEq

/-- The observable outcome of one handler call: HTTP status, JSON body,
resulting table state, and the storage operations performed in order. -/
structure HResult where
  status : Nat
  body : Resp
  state : DBState
  trace : List StorageOp
deriving DecidableEq

/-- Message of the empty-or-unparsable-body rejection in the ORM variant and
the raw-SQL create handler. -/
def invalidJsonMsg : String := "Invalid JSON or no data provided"

/-- Message of the empty-or-unparsable-body rejection in the raw-SQL update
handler, worded slightly differently in the source. -/
def invalidJsonMsgRaw : String := "Invalid JSON or data not provided"

/-- Message of the date-format rejection, shared by both ORM handlers. -/
def badDateMsg : String := "Invalid event_date format. Use YYYY-MM-DD HH:MM:SS"

/-- Message of the not-found responses. -/
def notFoundMsg : String := "Event not found"

/-- The fixed missing-fields message of the raw-SQL create handler, which
names all four required fields no matter which ones are absent. -/
def rawMissingMsg : String :=
  "Missing required event fields (title, description, event_date, location)"

/-- The enumerating missing-fields message of the ORM create handler. -/
def missingMsg (missing : List String) : String :=
  "Missing required fields: " ++ String.intercalate ", " missing

/-- Message of the zero-affected-rows branch of the raw-SQL update
handler. -/
def noChangeMsg : String :=
  "No changes made to event or event not found after initial check"

/-- Success message of creation. -/
def createdMsg : String := "Event created successfully"

/-- Success message of update. -/
def updatedMsg : String := "Event updated successfully"

/-- Success message of deletion. -/
def deletedMsg : String := "Event deleted successfully"

/-- A 500 response; every internal error interpolates the exception text into
the same sentence, which the embedding abbreviates to the exception class
name since no claim inspects it. -/
def err500 (s : String) : Resp := Resp.errJson ("An error occured: " ++ s)

/-- The required create fields in source order. -/
def requiredFields : List String :=
  ["title", "description", "event_date", "location"]

/-- Field value of a body as an optional string: none when the key is absent
or its value is JSON null. -/
def getStr (data : Body) (f : String) : Option String :=
  match getKey data f with
  | some v => jv2o v
  | none => none

/-- The row a create request stores: fresh id, the sanitized request values
(null for a JSON null), the parsed date, and the server clock as
created_at. Both variants insert this same row. -/
def rowOf (now : DateTime) (st : DBState) (data : Body) (dt : DateTime) :
    EventRow :=
  { id := st.nextId
    title := getStr data "title"
    description := getStr data "description"
    event_date := some dt
    location := getStr data "location"
    created_at := now }

/-- The event record echoed by the raw-SQL create response: the four request
values verbatim, no id and no created_at key. -/
def rawEchoOf (data : Body) (s : String) : EventJson :=
  { id := none
    title := getStr data "title"
    description := getStr data "description"
    event_date := some (DateOut.lit s)
    location := getStr data "location"
    created_at := none }

namespace Orm

/-- Embedding of Event.to_dict from src/models/events.py: the full record,
with the two datetime columns rendered by strftime with the fixed pattern
(or null when absent). -/
def to_dict (r : EventRow) : EventJson :=
  { id := some r.id
    title := r.title
    description := r.description
    event_date := r.event_date.map (fun d => DateOut.lit (formatDateTime d))
    location := r.location
    created_at := some (DateOut.lit (formatDateTime r.created_at)) }

/-- Outcome of applying the supplied fields of an update body onto an ORM
object, src/app.py lines 107-119: a merged row, or the 400 date-format
rejection, or the uncaught TypeError a null event_date raises inside
strptime. -/
inductive MergeOut where
  | badDate
  | typeErr
  | ok (r : EventRow)
deriving DecidableEq

/-- Assignment of a supplied title onto the ORM object, src/app.py lines
107-108. -/
def setTitle (data : Body) (e : EventRow) : EventRow :=
  match getKey data "title" with
  | some v => { e with title := jv2o v }
  | none => e

/-- Assignment of a supplied description onto the ORM object, src/app.py
lines 109-110. -/
def setDescription (data : Body) (e : EventRow) : EventRow :=
  match getKey data "description" with
  | some v => { e with description := jv2o v }
  | none => e

/-- Assignment of a supplied location onto the ORM object, src/app.py lines
118-119. -/
def setLocation (data : Body) (e : EventRow) : EventRow :=
  match getKey data "location" with
  | some v => { e with location := jv2o v }
  | none => e

/-- The field-by-field merge of src/app.py lines 107-119: title and
description are assigned first, then event_date is parsed (a null value
raises TypeError, an unparsable string returns the 400 before location is
assigned), then location. -/
def mergeFields (data : Body) (e : EventRow) : MergeOut :=
  let e2 := setDescription data (setTitle data e)
  match getKey data "event_date" with
  | some JVal.null => MergeOut.typeErr
  | some (JVal.str s) =>
    match parseDateTime s with
    | none => MergeOut.badDate
    | some dt => MergeOut.ok (setLocation data { e2 with event_date := some dt })
  | none => MergeOut.ok (setLocation data e2)

/-- The fields of the create request that are absent, in source order. -/
def missingOf (data : Body) : List String :=
  requiredFields.filter (fun f => ! hasKey data f)

/-- Embedding of the ORM create_event handler, src/app.py lines 32-69: body
presence, required-field enumeration, strptime validation, then the insert
and the 201 response carrying the id and the full to_dict record; a null
title or location violates a NOT NULL constraint at commit and surfaces as
the 500 branch with a rollback. -/
def create_event (now : DateTime) (req : Option Body) (st : DBState) :
    HResult :=
  match req with
  | none =>
    { status := 400, body := Resp.errJson invalidJsonMsg, state := st,
      trace := [] }
  | some data =>
    if data.isEmpty then
      { status := 400, body := Resp.errJson invalidJsonMsg, state := st,
        trace := [] }
    else
      if (missingOf data).isEmpty then
        match getKey data "event_date" with
        | some (JVal.str s) =>
          match parseDateTime s with
          | none =>
            { status := 400, body := Resp.errJson badDateMsg, state := st,
              trace := [] }
          | some dt =>
            if rowNullFree (rowOf now st data dt) then
              { status := 201
                body := Resp.createdJson createdMsg st.nextId
                  (to_dict (rowOf now st data dt))
                state := { rows := st.rows ++ [rowOf now st data dt],
                           nextId := st.nextId + 1 }
                trace := [StorageOp.write] }
            else
              { status := 500, body := err500 "IntegrityError", state := st,
                trace := [StorageOp.write] }
        | _ =>
          { status := 500, body := err500 "TypeError", state := st,
            trace := [] }
      else
        { status := 400, body := Resp.errJson (missingMsg (missingOf data)),
          state := st, trace := [] }

/-- Embedding of the ORM get_all_events handler, src/app.py lines 72-80. -/
def get_all_events (st : DBState) : HResult :=
  { status := 200, body := Resp.eventsJson (st.rows.map to_dict), state := st,
    trace := [StorageOp.read] }

/-- Embedding of the ORM get_single_event handler, src/app.py lines
83-93. -/
def get_single_event (id : Nat) (st : DBState) : HResult :=
  match findRow st id with
  | some e =>
    { status := 200, body := Resp.eventJson (to_dict e), state := st,
      trace := [StorageOp.read] }
  | none =>
    { status := 404, body := Resp.msgJson notFoundMsg, state := st,
      trace := [StorageOp.read] }

/-- Embedding of the ORM update_event handler, src/app.py lines 96-131: the
existence read precedes the body checks; supplied fields are merged onto the
object; commit persists the merged row (emitting no SQL when nothing
changed), and a null in a constrained column surfaces as the 500 branch. -/
def update_event (id : Nat) (req : Option Body) (st : DBState) : HResult :=
  match findRow st id with
  | none =>
    { status := 404, body := Resp.msgJson notFoundMsg, state := st,
      trace := [StorageOp.read] }
  | some e =>
    match req with
    | none =>
      { status := 400, body := Resp.errJson invalidJsonMsg, state := st,
        trace := [StorageOp.read] }
    | some data =>
      if data.isEmpty then
        { status := 400, body := Resp.errJson invalidJsonMsg, state := st,
          trace := [StorageOp.read] }
      else
        match mergeFields data e with
        | MergeOut.typeErr =>
          { status := 500, body := err500 "TypeError", state := st,
            trace := [StorageOp.read] }
        | MergeOut.badDate =>
          { status := 400, body := Resp.errJson badDateMsg, state := st,
            trace := [StorageOp.read] }
        | MergeOut.ok e4 =>
          if rowNullFree e4 then
            { status := 200
              body := Resp.updatedJson updatedMsg e.id (to_dict e4)
              state := { rows := replaceRows st.rows id e4,
                         nextId := st.nextId }
              trace :=
                if e4 = e then [StorageOp.read]
                else [StorageOp.read, StorageOp.write] }
          else
            { status := 500, body := err500 "IntegrityError", state := st,
              trace := [StorageOp.read, StorageOp.write] }

/-- Embedding of the ORM delete_event handler, src/app.py lines 134-146. The
missing-row branch returns status 400 with the literal variable name as the
message, exactly as the source does. -/
def delete_event (id : Nat) (st : DBState) : HResult :=
  match findRow st id with
  | none =>
    { status := 400, body := Resp.msgJson "event_to_delete", state := st,
      trace := [StorageOp.read] }
  | some _ =>
    { status := 200, body := Resp.msgJson deletedMsg
      state := { rows := st.rows.filter (fun r => ! (r.id == id)),
                 nextId := st.nextId }
      trace := [StorageOp.read, StorageOp.write] }

end Orm

namespace RawSql

/-- The JSON record a DictCursor row becomes under jsonify: every column is
present, and the two datetime columns are Python datetime objects handed to
the JSON encoder of the framework rather than strftime strings. -/
def rowJson (r : EventRow) : EventJson :=
  { id := some r.id
    title := r.title
    description := r.description
    event_date := r.event_date.map DateOut.pyDateTime
    location := r.location
    created_at := some (DateOut.pyDateTime r.created_at) }

/-- The four local variables of the raw-SQL update handler,
src/mysql_raw/app_mysql.py lines 139-145: each is the supplied body value
or, when the key is absent, the stored value (event_date as its strftime
rendering). -/
structure UpdateVars where
  title : Option String
  description : Option String
  event_date : Option String
  location : Option String
deriving DecidableEq

/-- Computes the update variables from the body and the previously selected
row, whose stored event_date d0 is rendered with strftime for the default. -/
def updateVars (data : Body) (e : EventRow) (d0 : DateTime) : UpdateVars :=
  { title :=
      match getKey data "title" with
      | some v => jv2o v
      | none => e.title
    description :=
      match getKey data "description" with
      | some v => jv2o v
      | none => e.description
    event_date :=
      match getKey data "event_date" with
      | some v => jv2o v
      | none => some (formatDateTime d0)
    location :=
      match getKey data "location" with
      | some v => jv2o v
      | none => e.location }

/-- Embedding of the raw-SQL create_event handler,
src/mysql_raw/app_mysql.py lines 37-90: body presence, the all-fields
membership check with its fixed error message, then the INSERT handed the
four values verbatim; the database rejects null in a NOT NULL column and
unparsable DATETIME literals, surfacing as the 500 branch, and on success
the 201 response echoes the four request values with no id or created_at
key. -/
def create_event (now : DateTime) (req : Option Body) (st : DBState) :
    HResult :=
  match req with
  | none =>
    { status := 400, body := Resp.errJson invalidJsonMsg, state := st,
      trace := [] }
  | some data =>
    if data.isEmpty then
      { status := 400, body := Resp.errJson invalidJsonMsg, state := st,
        trace := [] }
    else
      if requiredFields.all (fun f => hasKey data f) then
        match getStr data "event_date" with
        | none =>
          { status := 500, body := err500 "IntegrityError", state := st,
            trace := [StorageOp.write] }
        | some s =>
          match mysqlParseDate s with
          | none =>
            { status := 500, body := err500 "DataError", state := st,
              trace := [StorageOp.write] }
          | some dt =>
            if (getStr data "title").isSome &&
                (getStr data "location").isSome then
              { status := 201
                body := Resp.createdJson createdMsg st.nextId
                  (rawEchoOf data s)
                state := { rows := st.rows ++ [rowOf now st data dt],
                           nextId := st.nextId + 1 }
                trace := [StorageOp.write] }
            else
              { status := 500, body := err500 "IntegrityError", state := st,
                trace := [StorageOp.write] }
      else
        { status := 400, body := Resp.errJson rawMissingMsg, state := st,
          trace := [] }

/-- Embedding of the raw-SQL get_all_events handler,
src/mysql_raw/app_mysql.py lines 93-102. -/
def get_all_events (st : DBState) : HResult :=
  { status := 200, body := Resp.eventsJson (st.rows.map rowJson), state := st,
    trace := [StorageOp.read] }

/-- Embedding of the raw-SQL get_single_event handler,
src/mysql_raw/app_mysql.py lines 105-119. -/
def get_single_event (id : Nat) (st : DBState) : HResult :=
  match findRow st id with
  | some e =>
    { status := 200, body := Resp.eventJson (rowJson e), state := st,
      trace := [StorageOp.read] }
  | none =>
    { status := 404, body := Resp.msgJson notFoundMsg, state := st,
      trace := [StorageOp.read] }

/-- The row the raw-SQL UPDATE statement writes: the merged variables with
the parsed date, same primary key and created_at. -/
def mergedRow (data : Body) (e : EventRow) (d0 : DateTime) (dt : DateTime) :
    EventRow :=
  { id := e.id
    title := (updateVars data e d0).title
    description := (updateVars data e d0).description
    event_date := some dt
    location := (updateVars data e d0).location
    created_at := e.created_at }

/-- The event record echoed by a successful raw-SQL update response: the
four merged variables, the date as the literal string, no id and no
created_at key. -/
def updateEcho (data : Body) (e : EventRow) (d0 : DateTime) (s : String) :
    EventJson :=
  { id := none
    title := (updateVars data e d0).title
    description := (updateVars data e d0).description
    event_date := some (DateOut.lit s)
    location := (updateVars data e d0).location
    created_at := none }

/-- Embedding of the raw-SQL update_event handler,
src/mysql_raw/app_mysql.py lines 122-176: the existence SELECT precedes the
body check; the default strftime rendering of the stored event_date is
computed unconditionally, so a null stored date raises before the UPDATE;
the UPDATE sets all four columns to the merged variables (nulls in
constrained columns and unparsable date literals surface as the 500
branch); zero affected rows, which the database reports exactly when the
merged values equal the stored ones, takes the distinct no-change branch,
and otherwise the 200 response echoes the four variables with no id or
created_at key. -/
def update_event (id : Nat) (req : Option Body) (st : DBState) : HResult :=
  match findRow st id with
  | none =>
    { status := 404, body := Resp.msgJson notFoundMsg, state := st,
      trace := [StorageOp.read] }
  | some e =>
    match req with
    | none =>
      { status := 400, body := Resp.errJson invalidJsonMsgRaw, state := st,
        trace := [StorageOp.read] }
    | some data =>
      if data.isEmpty then
        { status := 400, body := Resp.errJson invalidJsonMsgRaw, state := st,
          trace := [StorageOp.read] }
      else
        match e.event_date with
        | none =>
          { status := 500, body := err500 "AttributeError", state := st,
            trace := [StorageOp.read] }
        | some d0 =>
          match (updateVars data e d0).event_date with
          | none =>
            { status := 500, body := err500 "IntegrityError", state := st,
              trace := [StorageOp.read, StorageOp.write] }
          | some s =>
            match mysqlParseDate s with
            | none =>
              { status := 500, body := err500 "DataError", state := st,
                trace := [StorageOp.read, StorageOp.write] }
            | some dt =>
              if (updateVars data e d0).title.isSome &&
                  (updateVars data e d0).location.isSome then
                if mergedRow data e d0 dt = e then
                  { status := 200, body := Resp.msgJson noChangeMsg,
                    state := st,
                    trace := [StorageOp.read, StorageOp.write] }
                else
                  { status := 200
                    body := Resp.updatedJson updatedMsg id
                      (updateEcho data e d0 s)
                    state := { rows := replaceRows st.rows id
                                 (mergedRow data e d0 dt),
                               nextId := st.nextId }
                    trace := [StorageOp.read, StorageOp.write] }
              else
                { status := 500, body := err500 "IntegrityError", state := st,
                  trace := [StorageOp.read, StorageOp.write] }

/-- Embedding of the raw-SQL delete_event handler,
src/mysql_raw/app_mysql.py lines 179-204: the EXISTS SELECT, the 404 branch,
then the DELETE and the success message. -/
def delete_event (id : Nat) (st : DBState) : HResult :=
  match findRow st id with
  | none =>
    { status := 404, body := Resp.msgJson notFoundMsg, state := st,
      trace := [StorageOp.read] }
  | some _ =>
    { status := 200, body := Resp.msgJson deletedMsg
      state := { rows := st.rows.filter (fun r => ! (r.id == id)),
                 nextId := st.nextId }
      trace := [StorageOp.read, StorageOp.write] }

end RawSql

/-- The date-time of the create scenario in the specification. -/
def dt0 : DateTime := ⟨2024, 1, 1, 10, 0, 0⟩

/-- A server clock value used as the created_at of sample inserts. -/
def now0 : DateTime := ⟨2024, 1, 1, 9, 0, 0⟩

/-- A stored sample row matching the create scenario of the
specification. -/
def row1 : EventRow :=
  { id := 1, title := some "Launch", description := some "Kickoff",
    event_date := some dt0, location := some "HQ", created_at := now0 }

/-- A one-row table holding the sample row. -/
def st1 : DBState := { rows := [row1], nextId := 2 }

/-- The valid create payload of the scenario in the specification. -/
def payload0 : Body :=
  [("title", JVal.str "Launch"), ("description", JVal.str "Kickoff"),
   ("event_date", JVal.str "2024-01-01 10:00:00"),
   ("location", JVal.str "HQ")]

/-- The wrong-format create payload of the scenario in the specification:
its event_date is a bare date with no time part. -/
def payloadBadDate : Body :=
  [("title", JVal.str "Launch"), ("description", JVal.str "Kickoff"),
   ("event_date", JVal.str "2024-01-01"), ("location", JVal.str "HQ")]

/-- The missing-location create payload of the scenario in the
specification. -/
def payloadNoLoc : Body :=
  [("title", JVal.str "Launch"), ("description", JVal.str "Kickoff"),
   ("event_date", JVal.str "2024-01-01 10:00:00")]

/-- A create payload missing only the title field. -/
def payloadNoTitle : Body :=
  [("description", JVal.str "Kickoff"),
   ("event_date", JVal.str "2024-01-01 10:00:00"),
   ("location", JVal.str "HQ")]

/-- An update body supplying only a new title. -/
def bodyNewTitle : Body := [("title", JVal.str "Liftoff")]

/-- An update body restating exactly the stored title of the sample row, a
merge that leaves the row identical. -/
def bodySameTitle : Body := [("title", JVal.str "Launch")]

/-- The row a successful create inserts: fresh id, the supplied sanitized
values, and the server clock as created_at. -/
def insertedRow (now : DateTime) (st : DBState) (t : String)
    (dsc : Option String) (dt : DateTime) (l : String) : EventRow :=
  { id := st.nextId, title := some t, description := dsc,
    event_date := some dt, location := some l, created_at := now }

/-- The table after appending one row and advancing the counter. -/
def insertState (st : DBState) (row : EventRow) : DBState :=
  { rows := st.rows ++ [row], nextId := st.nextId + 1 }

/-- The event record echoed by a successful raw-SQL create: only the four
request values, no id and no created_at key. -/
def rawEcho (t : String) (dsc : Option String) (s : String) (l : String) :
    EventJson :=
  { id := none, title := some t, description := dsc,
    event_date := some (DateOut.lit s), location := some l,
    created_at := none }

/-- Every stored row has a key below the auto-increment counter. -/
def FreshId (st : DBState) : Prop := ∀ r ∈ st.rows, r.id < st.nextId

/-- Every stored row satisfies the NOT NULL constraints: the invariant of
the data model section of the specification. -/
def StateOk (st : DBState) : Prop := ∀ r ∈ st.rows, rowNullFree r = true

/-- The field f is not supplied by the request: the body is absent or lacks
the key. -/
def omittedKey (req : Option Body) (f : String) : Prop :=
  ∀ data, req = some data → hasKey data f = false

/-- The frame property of an update outcome: some row is stored under the
id, every omitted field of that row keeps its prior value, and if the
response carries an updated_event record, its omitted fields also show the
prior values (the prior event_date as its strftime rendering). -/
def RetainPost (e : EventRow) (d0 : DateTime) (req : Option Body) (id : Nat)
    (res : HResult) : Prop :=
  (∃ r, findRow res.state id = some r ∧
    (omittedKey req "title" → r.title = e.title) ∧
    (omittedKey req "description" → r.description = e.description) ∧
    (omittedKey req "event_date" → r.event_date = e.event_date) ∧
    (omittedKey req "location" → r.location = e.location)) ∧
  (∀ m i ev, res.body = Resp.updatedJson m i ev →
    (omittedKey req "title" → ev.title = e.title) ∧
    (omittedKey req "description" → ev.description = e.description) ∧
    (omittedKey req "event_date" →
      ev.event_date = some (DateOut.lit (formatDateTime d0))) ∧
    (omittedKey req "location" → ev.location = e.location))

theorem data_mk (l : List Char) : (String.mk l).data = l := rfl

theorem digitChar_isDigit (n : Nat) : (digitChar n).isDigit = true := by
  unfold digitChar
  split <;> decide

theorem charVal_digitChar (n : Nat) (h : n < 10) :
    charVal (digitChar n) = n := by
  interval_cases n <;> rfl

theorem daysInMonth_le (y m : Nat) : daysInMonth y m ≤ 31 := by
  unfold daysInMonth
  split
  · split <;> omega
  · split <;> omega

theorem readYear_pad4 (n : Nat) (rest : List Char) (h : n ≤ 9999) :
    readYear (pad4 n ++ rest) = some (n, rest) := by
  have e3 := charVal_digitChar (n / 1000 % 10) (Nat.mod_lt _ (by norm_num))
  have e2 := charVal_digitChar (n / 100 % 10) (Nat.mod_lt _ (by norm_num))
  have e1 := charVal_digitChar (n / 10 % 10) (Nat.mod_lt _ (by norm_num))
  have e0 := charVal_digitChar (n % 10) (Nat.mod_lt _ (by norm_num))
  simp [pad4, readYear, digitChar_isDigit, digitsVal, e3, e2, e1, e0]
  omega

theorem readNum2_pad2 (n : Nat) (c : Char) (rest : List Char) (h : n ≤ 99)
    (hc : c.isDigit = false) :
    readNum2 (pad2 n ++ c :: rest) = some (n, c :: rest) := by
  have e1 := charVal_digitChar (n / 10 % 10) (Nat.mod_lt _ (by norm_num))
  have e0 := charVal_digitChar (n % 10) (Nat.mod_lt _ (by norm_num))
  simp [pad2, readNum2, splitDigits, List.takeWhile_cons, List.dropWhile_cons,
    digitChar_isDigit, hc, digitsVal, e1, e0]
  omega

theorem readNum2_pad2_nil (n : Nat) (h : n ≤ 99) :
    readNum2 (pad2 n) = some (n, []) := by
  have e1 := charVal_digitChar (n / 10 % 10) (Nat.mod_lt _ (by norm_num))
  have e0 := charVal_digitChar (n % 10) (Nat.mod_lt _ (by norm_num))
  simp [pad2, readNum2, splitDigits, List.takeWhile_cons, List.dropWhile_cons,
    digitChar_isDigit, digitsVal, e1, e0]
  omega

theorem expect_cons (c : Char) (rest : List Char) :
    expect c (c :: rest) = some rest := by
  simp [expect]

theorem findRow_id {st : DBState} {id : Nat} {e : EventRow}
    (h : findRow st id = some e) : e.id = id := by
  have hp := List.find?_some h
  simpa using hp

theorem find?_replaceRows (rows : List EventRow) (id : Nat) (r : EventRow)
    (hr : r.id = id) (e : EventRow)
    (h : rows.find? (fun x => x.id == id) = some e) :
    (replaceRows rows id r).find? (fun x => x.id == id) = some r := by
  induction rows with
  | nil => simp at h
  | cons a l ih =>
    show ((if a.id == id then r else a) :: replaceRows l id r).find? _ = some r
    by_cases ha : (a.id == id) = true
    · rw [if_pos ha]
      have hrp : (r.id == id) = true := by simp [hr]
      simp [List.find?, hrp]
    · have ha2 : (a.id == id) = false := by simpa using ha
      rw [if_neg ha]
      have h2 : List.find? (fun x => x.id == id) l = some e := by
        simp only [List.find?, ha2] at h
        exact h
      simp only [List.find?, ha2]
      exact ih h2

theorem findRow_replace {st : DBState} {id : Nat} {e r : EventRow} {n : Nat}
    (h : findRow st id = some e) (hr : r.id = id) :
    findRow { rows := replaceRows st.rows id r, nextId := n } id = some r :=
  find?_replaceRows st.rows id r hr e h

theorem findRow_append {rows : List EventRow} {n : Nat} {row : EventRow}
    (hfresh : ∀ r ∈ rows, r.id ≠ row.id) :
    findRow { rows := rows ++ [row], nextId := n } row.id = some row := by
  unfold findRow
  rw [List.find?_append]
  have h1 : rows.find? (fun x => x.id == row.id) = none := by
    rw [List.find?_eq_none]
    intro x hx
    simpa using hfresh x hx
  simp [h1]

theorem getKey_ne_nil {data : Body} {k : String} {v : JVal}
    (h : getKey data k = some v) : data.isEmpty = false := by
  match data with
  | [] => simp [getKey] at h
  | p :: l => rfl

theorem hasKey_of_getKey {data : Body} {k : String} {v : JVal}
    (h : getKey data k = some v) : hasKey data k = true := by
  simp [hasKey, h]

theorem getKey_none_of_hasKey_false {data : Body} {k : String}
    (h : hasKey data k = false) : getKey data k = none := by
  cases hk : getKey data k with
  | none => rfl
  | some v => simp [hasKey, hk] at h

theorem setTitle_spec (data : Body) (e : EventRow) :
    (Orm.setTitle data e).id = e.id ∧
    (Orm.setTitle data e).description = e.description ∧
    (Orm.setTitle data e).event_date = e.event_date ∧
    (Orm.setTitle data e).location = e.location ∧
    (Orm.setTitle data e).created_at = e.created_at ∧
    (getKey data "title" = none → (Orm.setTitle data e).title = e.title) := by
  unfold Orm.setTitle
  rcases h : getKey data "title" with _ | v <;> simp [h]

theorem setDescription_spec (data : Body) (e : EventRow) :
    (Orm.setDescription data e).id = e.id ∧
    (Orm.setDescription data e).title = e.title ∧
    (Orm.setDescription data e).event_date = e.event_date ∧
    (Orm.setDescription data e).location = e.location ∧
    (Orm.setDescription data e).created_at = e.created_at ∧
    (getKey data "description" = none →
      (Orm.setDescription data e).description = e.description) := by
  unfold Orm.setDescription
  rcases h : getKey data "description" with _ | v <;> simp [h]

theorem setLocation_spec (data : Body) (e : EventRow) :
    (Orm.setLocation data e).id = e.id ∧
    (Orm.setLocation data e).title = e.title ∧
    (Orm.setLocation data e).event_date = e.event_date ∧
    (Orm.setLocation data e).description = e.description ∧
    (Orm.setLocation data e).created_at = e.created_at ∧
    (getKey data "location" = none →
      (Orm.setLocation data e).location = e.location) := by
  unfold Orm.setLocation
  rcases h : getKey data "location" with _ | v <;> simp [h]

theorem mergeFields_date_none (data : Body) (e : EventRow)
    (h : getKey data "event_date" = none) :
    Orm.mergeFields data e =
      Orm.MergeOut.ok
        (Orm.setLocation data
          (Orm.setDescription data (Orm.setTitle data e))) := by
  unfold Orm.mergeFields
  rw [h]

theorem mergeFields_date_null (data : Body) (e : EventRow)
    (h : getKey data "event_date" = some JVal.null) :
    Orm.mergeFields data e = Orm.MergeOut.typeErr := by
  unfold Orm.mergeFields
  rw [h]

theorem mergeFields_date_bad (data : Body) (e : EventRow) (s : String)
    (h : getKey data "event_date" = some (JVal.str s))
    (hp : parseDateTime s = none) :
    Orm.mergeFields data e = Orm.MergeOut.badDate := by
  unfold Orm.mergeFields
  rw [h]
  simp [hp]

theorem mergeFields_date_ok (data : Body) (e : EventRow) (s : String)
    (dt : DateTime) (h : getKey data "event_date" = some (JVal.str s))
    (hp : parseDateTime s = some dt) :
    Orm.mergeFields data e =
      Orm.MergeOut.ok
        (Orm.setLocation data
          { Orm.setDescription data (Orm.setTitle data e) with
            event_date := some dt }) := by
  unfold Orm.mergeFields
  rw [h]
  simp [hp]

theorem mergeFields_ok_fields (data : Body) (e e4 : EventRow)
    (hm : Orm.mergeFields data e = Orm.MergeOut.ok e4) :
    e4.id = e.id ∧ e4.created_at = e.created_at ∧
    (getKey data "title" = none → e4.title = e.title) ∧
    (getKey data "description" = none → e4.description = e.description) ∧
    (getKey data "event_date" = none → e4.event_date = e.event_date) ∧
    (getKey data "location" = none → e4.location = e.location) := by
  obtain ⟨t1, t2, t3, t4, t5, t6⟩ := setTitle_spec data e
  obtain ⟨d1, d2, d3, d4, d5, d6⟩ :=
    setDescription_spec data (Orm.setTitle data e)
  rcases h3 : getKey data "event_date" with _ | v3
  · rw [mergeFields_date_none data e h3] at hm
    obtain ⟨l1, l2, l3, l4, l5, l6⟩ :=
      setLocation_spec data (Orm.setDescription data (Orm.setTitle data e))
    cases hm
    refine ⟨by rw [l1, d1, t1], by rw [l5, d5, t5], ?_, ?_, ?_, ?_⟩
    · intro h
      rw [l2, d2, t6 h]
    · intro h
      rw [l4, d6 h, t2]
    · intro h
      rw [l3, d3, t3]
    · intro h
      rw [l6 h, d4, t4]
  · rcases v3 with s3 | _
    · rcases hp : parseDateTime s3 with _ | dt
      · rw [mergeFields_date_bad data e s3 h3 hp] at hm
        cases hm
      · rw [mergeFields_date_ok data e s3 dt h3 hp] at hm
        obtain ⟨l1, l2, l3, l4, l5, l6⟩ :=
          setLocation_spec data
            { Orm.setDescription data (Orm.setTitle data e) with
              event_date := some dt }
        cases hm
        refine ⟨?_, ?_, ?_, ?_, ?_, ?_⟩
        · rw [l1]
          exact d1.trans t1
        · rw [l5]
          exact d5.trans t5
        · intro h
          rw [l2]
          exact d2.trans (t6 h)
        · intro h
          rw [l4]
          exact (d6 h).trans t2
        · intro h
          cases h
        · intro h
          rw [l6 h]
          exact d4.trans t4
    · rw [mergeFields_date_null data e h3] at hm
      cases hm

theorem updateVars_spec (data : Body) (e : EventRow) (d0 : DateTime) :
    (getKey data "title" = none →
      (RawSql.updateVars data e d0).title = e.title) ∧
    (getKey data "description" = none →
      (RawSql.updateVars data e d0).description = e.description) ∧
    (getKey data "event_date" = none →
      (RawSql.updateVars data e d0).event_date =
        some (formatDateTime d0)) ∧
    (getKey data "location" = none →
      (RawSql.updateVars data e d0).location = e.location) := by
  refine ⟨?_, ?_, ?_, ?_⟩ <;> intro h <;> simp [RawSql.updateVars, h]

theorem parse_format_roundtrip (d : DateTime) (h : ValidDate d) :
    parseDateTime (formatDateTime d) = some d := by
  obtain ⟨h1, h2, h3, h4, h5, h6, h7, h8, h9⟩ := h
  have hmo : d.month ≤ 99 := by omega
  have hdy : d.day ≤ 99 := by
    have := daysInMonth_le d.year d.month
    omega
  have hh : d.hour ≤ 99 := by omega
  have hmi : d.minute ≤ 99 := by omega
  have hse : d.second ≤ 99 := by omega
  simp only [formatDateTime, parseDateTime, dtChars, data_mk]
  rw [readYear_pad4 _ _ h2]
  simp only [Option.bind_eq_bind, Option.some_bind]
  rw [expect_cons]
  simp only [Option.some_bind]
  rw [readNum2_pad2 _ _ _ hmo (by decide)]
  simp only [Option.some_bind]
  rw [expect_cons]
  simp only [Option.some_bind]
  rw [readNum2_pad2 _ _ _ hdy (by decide)]
  simp only [Option.some_bind]
  rw [expect_cons]
  simp only [Option.some_bind]
  rw [readNum2_pad2 _ _ _ hh (by decide)]
  simp only [Option.some_bind]
  rw [expect_cons]
  simp only [Option.some_bind]
  rw [readNum2_pad2 _ _ _ hmi (by decide)]
  simp only [Option.some_bind]
  rw [expect_cons]
  simp only [Option.some_bind]
  rw [readNum2_pad2_nil _ hse]
  simp only [Option.some_bind]
  simp [h1, h3, h4, h5, h6, h7, h8, h9]

theorem mysql_roundtrip (d : DateTime) (h : ValidDate d) :
    mysqlParseDate (formatDateTime d) = some d := by
  simp [mysqlParseDate, parse_format_roundtrip d h, Option.orElse]

theorem mysqlParseDate_of_parse {s : String} {dt : DateTime}
    (h : parseDateTime s = some dt) : mysqlParseDate s = some dt := by
  simp [mysqlParseDate, h, Option.orElse]

theorem orm_create_valid (now : DateTime) (st : DBState) (data : Body)
    (t s l : String) (dt : DateTime)
    (ht : getKey data "title" = some (JVal.str t))
    (hd : hasKey data "description" = true)
    (hed : getKey data "event_date" = some (JVal.str s))
    (hl : getKey data "location" = some (JVal.str l))
    (hp : parseDateTime s = some dt) :
    Orm.create_event now (some data) st =
      { status := 201,
        body := Resp.createdJson createdMsg st.nextId
          (Orm.to_dict (rowOf now st data dt)),
        state := insertState st (rowOf now st data dt),
        trace := [StorageOp.write] } := by
  have hne := getKey_ne_nil ht
  have hmiss : Orm.missingOf data = [] := by
    simp [Orm.missingOf, requiredFields, List.filter, hasKey_of_getKey ht, hd,
      hasKey_of_getKey hed, hasKey_of_getKey hl]
  unfold Orm.create_event
  simp [hne, hmiss, hed, hp, rowNullFree, rowOf, getStr, ht, hl, jv2o,
    insertState]

theorem raw_create_valid (now : DateTime) (st : DBState) (data : Body)
    (t s l : String) (dt : DateTime)
    (ht : getKey data "title" = some (JVal.str t))
    (hd : hasKey data "description" = true)
    (hed : getKey data "event_date" = some (JVal.str s))
    (hl : getKey data "location" = some (JVal.str l))
    (hp : mysqlParseDate s = some dt) :
    RawSql.create_event now (some data) st =
      { status := 201,
        body := Resp.createdJson createdMsg st.nextId (rawEchoOf data s),
        state := insertState st (rowOf now st data dt),
        trace := [StorageOp.write] } := by
  have hne := getKey_ne_nil ht
  have hall : requiredFields.all (fun f => hasKey data f) = true := by
    simp [requiredFields, List.all, hasKey_of_getKey ht, hd,
      hasKey_of_getKey hed, hasKey_of_getKey hl]
  unfold RawSql.create_event
  simp [hne, hall, hed, hp, getStr, ht, hl, jv2o, insertState]

theorem StateOk_append {st : DBState} {r : EventRow} {n : Nat}
    (h : StateOk st) (hr : rowNullFree r = true) :
    StateOk { rows := st.rows ++ [r], nextId := n } := by
  intro x hx
  rcases List.mem_append.mp hx with hx | hx
  · exact h x hx
  · simp at hx
    subst hx
    exact hr

theorem StateOk_replace {st : DBState} {id : Nat} {r : EventRow} {n : Nat}
    (h : StateOk st) (hr : rowNullFree r = true) :
    StateOk { rows := replaceRows st.rows id r, nextId := n } := by
  intro x hx
  unfold replaceRows at hx
  rcases List.mem_map.mp hx with ⟨y, hy, hxy⟩
  subst hxy
  by_cases hc : (y.id == id) = true
  · simpa [hc] using hr
  · simpa [hc] using h y hy

theorem StateOk_filter {st : DBState} {p : EventRow → Bool} {n : Nat}
    (h : StateOk st) : StateOk { rows := st.rows.filter p, nextId := n } := by
  intro x hx
  exact h x (List.mem_filter.mp hx).1

/-- C1: for an id that was never created, the claim says ReadOne, Update and
Delete return a 404 NotFound with a message key in both variants. Evaluating
the handlers on the empty table at id 1 shows five of the six cases do, but
the ORM delete handler returns HTTP 400 with the literal variable name
event_to_delete as the message: the code contradicts the specification and
its sibling raw-SQL handler, a clear slip in src/app.py lines 138-139. -/
theorem C1_not_found_evaluation :
    (Orm.delete_event 1 emptyDB).status = 400 ∧
    (Orm.delete_event 1 emptyDB).body = Resp.msgJson "event_to_delete" ∧
    (Orm.get_single_event 1 emptyDB).status = 404 ∧
    (Orm.get_single_event 1 emptyDB).body = Resp.msgJson notFoundMsg ∧
    (Orm.update_event 1 (some bodyNewTitle) emptyDB).status = 404 ∧
    (RawSql.get_single_event 1 emptyDB).status = 404 ∧
    (RawSql.update_event 1 (some bodyNewTitle) emptyDB).status = 404 ∧
    (RawSql.delete_event 1 emptyDB).status = 404 ∧
    (RawSql.delete_event 1 emptyDB).body = Resp.msgJson notFoundMsg :=
  ⟨rfl, rfl, rfl, rfl, rfl, rfl, rfl, rfl, rfl⟩

/-- C2 counterexample: the two variants are not functionally equivalent.
Deleting the missing id 1 on the same empty table returns HTTP 400 in the
ORM variant but 404 in the raw-SQL variant. -/
theorem C2_counterexample :
    (Orm.delete_event 1 emptyDB).status = 400 ∧
    (RawSql.delete_event 1 emptyDB).status = 404 := ⟨rfl, rfl⟩

/-- C2 amended: on the same stored state the variants agree on ReadOne
status for every id, on the full Delete outcome for existing ids, on the
400 rejection of an absent create body, and on Create success (both 201
with identical resulting table state) for payloads carrying all four fields
as strings with a pattern-valid event_date; the delete-missing case, the
missing format validation in the raw variant, and payload details remain
the exceptions. -/
theorem C2_variant_agreement :
    (∀ st id, (Orm.get_single_event id st).status =
      (RawSql.get_single_event id st).status) ∧
    (∀ st id e, findRow st id = some e →
      (Orm.delete_event id st).status = (RawSql.delete_event id st).status ∧
      (Orm.delete_event id st).body = (RawSql.delete_event id st).body ∧
      (Orm.delete_event id st).state = (RawSql.delete_event id st).state) ∧
    (∀ now st, (Orm.create_event now none st).status = 400 ∧
      (RawSql.create_event now none st).status = 400) ∧
    (∀ now st data t s l dt,
      getKey data "title" = some (JVal.str t) →
      hasKey data "description" = true →
      getKey data "event_date" = some (JVal.str s) →
      getKey data "location" = some (JVal.str l) →
      parseDateTime s = some dt →
      (Orm.create_event now (some data) st).status = 201 ∧
      (RawSql.create_event now (some data) st).status = 201 ∧
      (Orm.create_event now (some data) st).state =
        (RawSql.create_event now (some data) st).state) := by
  refine ⟨?_, ?_, ?_, ?_⟩
  · intro st id
    unfold Orm.get_single_event RawSql.get_single_event
    cases h : findRow st id <;> simp
  · intro st id e he
    unfold Orm.delete_event RawSql.delete_event
    rw [he]
    exact ⟨rfl, rfl, rfl⟩
  · intro now st
    exact ⟨rfl, rfl⟩
  · intro now st data t s l dt ht hd hed hl hp
    rw [orm_create_valid now st data t s l dt ht hd hed hl hp,
        raw_create_valid now st data t s l dt ht hd hed hl
          (mysqlParseDate_of_parse hp)]
    exact ⟨rfl, rfl, rfl⟩

/-- C2 witness: the agreement theorem applied to the sample table for an
existing delete and to the scenario create payload on the empty table. -/
theorem C2_witness :
    ((Orm.delete_event 1 st1).status = (RawSql.delete_event 1 st1).status ∧
     (Orm.delete_event 1 st1).body = (RawSql.delete_event 1 st1).body ∧
     (Orm.delete_event 1 st1).state = (RawSql.delete_event 1 st1).state) ∧
    ((Orm.create_event now0 (some payload0) emptyDB).status = 201 ∧
     (RawSql.create_event now0 (some payload0) emptyDB).status = 201 ∧
     (Orm.create_event now0 (some payload0) emptyDB).state =
       (RawSql.create_event now0 (some payload0) emptyDB).state) :=
  ⟨C2_variant_agreement.2.1 st1 1 row1 rfl,
   C2_variant_agreement.2.2.2 now0 emptyDB payload0 "Launch"
     "2024-01-01 10:00:00" "HQ" dt0 rfl rfl rfl rfl rfl⟩

/-- C3 counterexample: a create whose event_date is the wrong-format string
2024-01-01 is not rejected by the raw-SQL variant: it returns 201 and
inserts a row (the database coerces the date-only literal to midnight). -/
theorem C3_counterexample :
    (RawSql.create_event now0 (some payloadBadDate) emptyDB).status = 201 ∧
    (RawSql.create_event now0 (some payloadBadDate) emptyDB).state.rows =
      [{ id := 1, title := some "Launch", description := some "Kickoff",
         event_date := some ⟨2024, 1, 1, 0, 0, 0⟩, location := some "HQ",
         created_at := now0 }] := ⟨rfl, rfl⟩

/-- C3 amended: the ORM variant rejects every create whose event_date value
does not parse against the fixed pattern with HTTP 400, the format-error
message and no change to the table; the raw-SQL variant performs no format
check and accepts the wrong-format scenario input with 201, inserting a
row. -/
theorem C3_format_rejection :
    (∀ now st data s,
      hasKey data "title" = true →
      hasKey data "description" = true →
      getKey data "event_date" = some (JVal.str s) →
      hasKey data "location" = true →
      parseDateTime s = none →
      (Orm.create_event now (some data) st).status = 400 ∧
      (Orm.create_event now (some data) st).body = Resp.errJson badDateMsg ∧
      (Orm.create_event now (some data) st).state = st) ∧
    ((RawSql.create_event now0 (some payloadBadDate) emptyDB).status = 201 ∧
     (RawSql.create_event now0 (some payloadBadDate) emptyDB).state.rows ≠
       []) := by
  refine ⟨?_, rfl, by decide⟩
  intro now st data s ht hd hed hl hp
  have hne := getKey_ne_nil hed
  have hmiss : Orm.missingOf data = [] := by
    simp [Orm.missingOf, requiredFields, List.filter, ht, hd,
      hasKey_of_getKey hed, hl]
  unfold Orm.create_event
  simp [hne, hmiss, hed, hp]

/-- C3 witness: the format-rejection theorem applied to the wrong-format
scenario payload on the empty table. -/
theorem C3_witness :
    (Orm.create_event now0 (some payloadBadDate) emptyDB).status = 400 ∧
    (Orm.create_event now0 (some payloadBadDate) emptyDB).body =
      Resp.errJson badDateMsg ∧
    (Orm.create_event now0 (some payloadBadDate) emptyDB).state = emptyDB :=
  C3_format_rejection.1 now0 emptyDB payloadBadDate "2024-01-01"
    rfl rfl rfl rfl rfl

/-- C4 counterexample: in the raw-SQL variant the record returned at
creation time is not equal field for field to the record a subsequent
ReadOne returns: the creation echo lacks the id and created_at keys and
carries the literal date string, while the read carries them and a
serialized datetime. -/
theorem C4_counterexample :
    (RawSql.create_event now0 (some payload0) emptyDB).body =
      Resp.createdJson createdMsg 1
        (rawEchoOf payload0 "2024-01-01 10:00:00") ∧
    (RawSql.get_single_event 1
        (RawSql.create_event now0 (some payload0) emptyDB).state).body =
      Resp.eventJson (RawSql.rowJson row1) ∧
    rawEchoOf payload0 "2024-01-01 10:00:00" ≠ RawSql.rowJson row1 :=
  ⟨rfl, rfl, by decide⟩

/-- C4 amended: in the ORM variant every valid create returns a record that
a subsequent ReadOne with the returned event_id reproduces exactly; in the
raw-SQL variant the creation echo and the read record agree on the shared
request fields but differ as records, the read adding id and created_at and
presenting the date as a datetime object instead of the echoed literal. -/
theorem C4_create_read_roundtrip :
    (∀ now st data t s l dt,
      getKey data "title" = some (JVal.str t) →
      hasKey data "description" = true →
      getKey data "event_date" = some (JVal.str s) →
      getKey data "location" = some (JVal.str l) →
      parseDateTime s = some dt →
      FreshId st →
      ∃ ev, (Orm.create_event now (some data) st).body =
          Resp.createdJson createdMsg st.nextId ev ∧
        (Orm.get_single_event st.nextId
            (Orm.create_event now (some data) st).state).status = 200 ∧
        (Orm.get_single_event st.nextId
            (Orm.create_event now (some data) st).state).body =
          Resp.eventJson ev) ∧
    (∀ now st data t s l dt,
      getKey data "title" = some (JVal.str t) →
      hasKey data "description" = true →
      getKey data "event_date" = some (JVal.str s) →
      getKey data "location" = some (JVal.str l) →
      parseDateTime s = some dt →
      FreshId st →
      (RawSql.create_event now (some data) st).body =
        Resp.createdJson createdMsg st.nextId (rawEchoOf data s) ∧
      (RawSql.get_single_event st.nextId
          (RawSql.create_event now (some data) st).state).body =
        Resp.eventJson (RawSql.rowJson (rowOf now st data dt)) ∧
      rawEchoOf data s ≠ RawSql.rowJson (rowOf now st data dt)) := by
  constructor
  · intro now st data t s l dt ht hd hed hl hp hf
    have hfr : ∀ r ∈ st.rows, r.id ≠ (rowOf now st data dt).id :=
      fun r hr => Nat.ne_of_lt (hf r hr)
    have hfind : findRow (insertState st (rowOf now st data dt)) st.nextId =
        some (rowOf now st data dt) := by
      simpa [insertState, rowOf] using
        @findRow_append st.rows (st.nextId + 1) (rowOf now st data dt) hfr
    rw [orm_create_valid now st data t s l dt ht hd hed hl hp]
    exact ⟨Orm.to_dict (rowOf now st data dt), rfl,
      by simp [Orm.get_single_event, hfind],
      by simp [Orm.get_single_event, hfind]⟩
  · intro now st data t s l dt ht hd hed hl hp hf
    have hfr : ∀ r ∈ st.rows, r.id ≠ (rowOf now st data dt).id :=
      fun r hr => Nat.ne_of_lt (hf r hr)
    have hfind : findRow (insertState st (rowOf now st data dt)) st.nextId =
        some (rowOf now st data dt) := by
      simpa [insertState, rowOf] using
        @findRow_append st.rows (st.nextId + 1) (rowOf now st data dt) hfr
    rw [raw_create_valid now st data t s l dt ht hd hed hl
      (mysqlParseDate_of_parse hp)]
    refine ⟨rfl, by simp [RawSql.get_single_event, hfind], ?_⟩
    simp [rawEchoOf, RawSql.rowJson, rowOf]

/-- C4 witness: the round-trip theorem applied to the scenario payload on
the empty table, for both variants. -/
theorem C4_witness :
    (∃ ev, (Orm.create_event now0 (some payload0) emptyDB).body =
        Resp.createdJson createdMsg emptyDB.nextId ev ∧
      (Orm.get_single_event emptyDB.nextId
          (Orm.create_event now0 (some payload0) emptyDB).state).status =
        200 ∧
      (Orm.get_single_event emptyDB.nextId
          (Orm.create_event now0 (some payload0) emptyDB).state).body =
        Resp.eventJson ev) ∧
    ((RawSql.create_event now0 (some payload0) emptyDB).body =
       Resp.createdJson createdMsg emptyDB.nextId
         (rawEchoOf payload0 "2024-01-01 10:00:00") ∧
     (RawSql.get_single_event emptyDB.nextId
         (RawSql.create_event now0 (some payload0) emptyDB).state).body =
       Resp.eventJson
         (RawSql.rowJson (rowOf now0 emptyDB payload0 dt0)) ∧
     rawEchoOf payload0 "2024-01-01 10:00:00" ≠
       RawSql.rowJson (rowOf now0 emptyDB payload0 dt0)) :=
  ⟨C4_create_read_roundtrip.1 now0 emptyDB payload0 "Launch"
      "2024-01-01 10:00:00" "HQ" dt0 rfl rfl rfl rfl rfl
      (by intro r hr; simp [emptyDB] at hr),
   C4_create_read_roundtrip.2 now0 emptyDB payload0 "Launch"
      "2024-01-01 10:00:00" "HQ" dt0 rfl rfl rfl rfl rfl
      (by intro r hr; simp [emptyDB] at hr)⟩

/-- C5: for every existing event and every update request, the update
changes only the supplied fields: in both variants, every field omitted
from the body keeps its prior value in the stored row and, when the
response carries an updated_event record, in that record too (the prior
event_date appearing as its strftime rendering). The stored date is assumed
in range, which every date produced by parsing satisfies. -/
theorem C5_update_frame (st : DBState) (id : Nat) (e : EventRow)
    (req : Option Body) (d0 : DateTime)
    (he : findRow st id = some e) (hd0 : e.event_date = some d0)
    (hvd : ValidDate d0) :
    RetainPost e d0 req id (Orm.update_event id req st) ∧
    RetainPost e d0 req id (RawSql.update_event id req st) := by
  have base : ∀ res : HResult, res.state = st →
      (∀ m i ev, res.body = Resp.updatedJson m i ev → False) →
      RetainPost e d0 req id res := by
    intro res hstate hbody
    refine ⟨⟨e, by rw [hstate]; exact he, fun _ => rfl, fun _ => rfl,
      fun _ => rfl, fun _ => rfl⟩, ?_⟩
    intro m i ev hb
    exact absurd hb (fun hb2 => hbody m i ev hb2)
  constructor
  · cases req with
    | none =>
      have hres : Orm.update_event id none st =
          { status := 400, body := Resp.errJson invalidJsonMsg, state := st,
            trace := [StorageOp.read] } := by
        unfold Orm.update_event
        rw [he]
      rw [hres]
      exact base _ rfl (fun m i ev hb => Resp.noConfusion hb)
    | some data =>
      by_cases hemp : data.isEmpty = true
      · have hres : Orm.update_event id (some data) st =
            { status := 400, body := Resp.errJson invalidJsonMsg, state := st,
              trace := [StorageOp.read] } := by
          unfold Orm.update_event
          rw [he]
          simp [hemp]
        rw [hres]
        exact base _ rfl (fun m i ev hb => Resp.noConfusion hb)
      · rcases hm : Orm.mergeFields data e with _ | _ | e4
        · have hres : Orm.update_event id (some data) st =
              { status := 400, body := Resp.errJson badDateMsg, state := st,
                trace := [StorageOp.read] } := by
            unfold Orm.update_event
            rw [he]
            simp [hemp, hm]
          rw [hres]
          exact base _ rfl (fun m i ev hb => Resp.noConfusion hb)
        · have hres : Orm.update_event id (some data) st =
              { status := 500, body := err500 "TypeError", state := st,
                trace := [StorageOp.read] } := by
            unfold Orm.update_event
            rw [he]
            simp [hemp, hm]
          rw [hres]
          exact base _ rfl (fun m i ev hb => Resp.noConfusion hb)
        · by_cases hnf : rowNullFree e4 = true
          · have hres : Orm.update_event id (some data) st =
                { status := 200,
                  body := Resp.updatedJson updatedMsg e.id (Orm.to_dict e4),
                  state := { rows := replaceRows st.rows id e4,
                             nextId := st.nextId },
                  trace := if e4 = e then [StorageOp.read]
                           else [StorageOp.read, StorageOp.write] } := by
              unfold Orm.update_event
              rw [he]
              simp [hemp, hm, hnf]
            rw [hres]
            obtain ⟨f1, f2, f3, f4, f5, f6⟩ :=
              mergeFields_ok_fields data e e4 hm
            have he4 : e4.id = id := f1.trans (findRow_id he)
            constructor
            · refine ⟨e4, findRow_replace he he4, ?_, ?_, ?_, ?_⟩ <;>
                intro hom
              · exact f3 (getKey_none_of_hasKey_false (hom data rfl))
              · exact f4 (getKey_none_of_hasKey_false (hom data rfl))
              · exact f5 (getKey_none_of_hasKey_false (hom data rfl))
              · exact f6 (getKey_none_of_hasKey_false (hom data rfl))
            · intro m i ev hb
              cases hb
              refine ⟨?_, ?_, ?_, ?_⟩ <;> intro hom
              · show (Orm.to_dict e4).title = e.title
                simpa [Orm.to_dict] using
                  f3 (getKey_none_of_hasKey_false (hom data rfl))
              · show (Orm.to_dict e4).description = e.description
                simpa [Orm.to_dict] using
                  f4 (getKey_none_of_hasKey_false (hom data rfl))
              · have hdt := f5 (getKey_none_of_hasKey_false (hom data rfl))
                show (Orm.to_dict e4).event_date =
                  some (DateOut.lit (formatDateTime d0))
                simp [Orm.to_dict, hdt, hd0]
              · show (Orm.to_dict e4).location = e.location
                simpa [Orm.to_dict] using
                  f6 (getKey_none_of_hasKey_false (hom data rfl))
          · have hres : Orm.update_event id (some data) st =
                { status := 500, body := err500 "IntegrityError", state := st,
                  trace := [StorageOp.read, StorageOp.write] } := by
              unfold Orm.update_event
              rw [he]
              simp [hemp, hm, hnf]
            rw [hres]
            exact base _ rfl (fun m i ev hb => Resp.noConfusion hb)
  · cases req with
    | none =>
      have hres : RawSql.update_event id none st =
          { status := 400, body := Resp.errJson invalidJsonMsgRaw,
            state := st, trace := [StorageOp.read] } := by
        unfold RawSql.update_event
        rw [he]
      rw [hres]
      exact base _ rfl (fun m i ev hb => Resp.noConfusion hb)
    | some data =>
      by_cases hemp : data.isEmpty = true
      · have hres : RawSql.update_event id (some data) st =
            { status := 400, body := Resp.errJson invalidJsonMsgRaw,
              state := st, trace := [StorageOp.read] } := by
          unfold RawSql.update_event
          rw [he]
          simp [hemp]
        rw [hres]
        exact base _ rfl (fun m i ev hb => Resp.noConfusion hb)
      · rcases hv3 : (RawSql.updateVars data e d0).event_date with _ | s
        · have hres : RawSql.update_event id (some data) st =
              { status := 500, body := err500 "IntegrityError", state := st,
                trace := [StorageOp.read, StorageOp.write] } := by
            unfold RawSql.update_event
            rw [he]
            simp [hemp, hd0, hv3]
          rw [hres]
          exact base _ rfl (fun m i ev hb => Resp.noConfusion hb)
        · rcases hp : mysqlParseDate s with _ | dt
          · have hres : RawSql.update_event id (some data) st =
                { status := 500, body := err500 "DataError", state := st,
                  trace := [StorageOp.read, StorageOp.write] } := by
              unfold RawSql.update_event
              rw [he]
              simp [hemp, hd0, hv3, hp]
            rw [hres]
            exact base _ rfl (fun m i ev hb => Resp.noConfusion hb)
          · by_cases hsm : ((RawSql.updateVars data e d0).title.isSome &&
                (RawSql.updateVars data e d0).location.isSome) = true
            · by_cases hnc : RawSql.mergedRow data e d0 dt = e
              · have hres : RawSql.update_event id (some data) st =
                    { status := 200, body := Resp.msgJson noChangeMsg,
                      state := st,
                      trace := [StorageOp.read, StorageOp.write] } := by
                  unfold RawSql.update_event
                  rw [he]
                  simp [hemp, hd0, hv3, hp, hsm, hnc]
                rw [hres]
                exact base _ rfl (fun m i ev hb => Resp.noConfusion hb)
              · have hres : RawSql.update_event id (some data) st =
                    { status := 200,
                      body := Resp.updatedJson updatedMsg id
                        (RawSql.updateEcho data e d0 s),
                      state := { rows := replaceRows st.rows id
                                   (RawSql.mergedRow data e d0 dt),
                                 nextId := st.nextId },
                      trace := [StorageOp.read, StorageOp.write] } := by
                  unfold RawSql.update_event
                  rw [he]
                  simp [hemp, hd0, hv3, hp, hsm, hnc]
                rw [hres]
                obtain ⟨u1, u2, u3, u4⟩ := updateVars_spec data e d0
                have hid2 : e.id = id := findRow_id he
                have hmid : (RawSql.mergedRow data e d0 dt).id = id := hid2
                constructor
                · refine ⟨RawSql.mergedRow data e d0 dt,
                    findRow_replace he hmid, ?_, ?_, ?_, ?_⟩ <;> intro hom
                  · exact u1 (getKey_none_of_hasKey_false (hom data rfl))
                  · exact u2 (getKey_none_of_hasKey_false (hom data rfl))
                  · have hs : s = formatDateTime d0 := by
                      have hu :=
                        u3 (getKey_none_of_hasKey_false (hom data rfl))
                      rw [hv3] at hu
                      exact Option.some.inj hu
                    subst hs
                    rw [mysql_roundtrip d0 hvd] at hp
                    have hdt : d0 = dt := Option.some.inj hp
                    subst hdt
                    exact hd0.symm
                  · exact u4 (getKey_none_of_hasKey_false (hom data rfl))
                · intro m i ev hb
                  cases hb
                  refine ⟨?_, ?_, ?_, ?_⟩ <;> intro hom
                  · exact u1 (getKey_none_of_hasKey_false (hom data rfl))
                  · exact u2 (getKey_none_of_hasKey_false (hom data rfl))
                  · have hs : s = formatDateTime d0 := by
                      have hu :=
                        u3 (getKey_none_of_hasKey_false (hom data rfl))
                      rw [hv3] at hu
                      exact Option.some.inj hu
                    subst hs
                    rfl
                  · exact u4 (getKey_none_of_hasKey_false (hom data rfl))
            · have hres : RawSql.update_event id (some data) st =
                  { status := 500, body := err500 "IntegrityError",
                    state := st,
                    trace := [StorageOp.read, StorageOp.write] } := by
                unfold RawSql.update_event
                rw [he]
                simp [hemp, hd0, hv3, hp, hsm]
              rw [hres]
              exact base _ rfl (fun m i ev hb => Resp.noConfusion hb)

/-- C5 witness: the frame theorem applied to the sample table and the
title-only update body. -/
theorem C5_witness :
    RetainPost row1 dt0 (some bodyNewTitle) 1
      (Orm.update_event 1 (some bodyNewTitle) st1) ∧
    RetainPost row1 dt0 (some bodyNewTitle) 1
      (RawSql.update_event 1 (some bodyNewTitle) st1) :=
  C5_update_frame st1 1 row1 (some bodyNewTitle) dt0 rfl rfl (by decide)

/-- C6 counterexample: POST missing only location and POST missing only
title get the very same fixed error message from the raw-SQL variant, so
its message cannot enumerate exactly the fields that are missing. -/
theorem C6_counterexample :
    (RawSql.create_event now0 (some payloadNoLoc) emptyDB).status = 400 ∧
    (RawSql.create_event now0 (some payloadNoLoc) emptyDB).body =
      Resp.errJson rawMissingMsg ∧
    (RawSql.create_event now0 (some payloadNoTitle) emptyDB).body =
      Resp.errJson rawMissingMsg := ⟨rfl, rfl, rfl⟩

/-- C6 amended: both variants reject a create with missing fields with HTTP
400 and no change to the table; the ORM message enumerates exactly the
missing fields, and POST missing only location yields the message naming
location alone, while the raw-SQL variant answers with one fixed message
naming all four required fields. -/
theorem C6_missing_fields :
    (∀ now st data,
      data.isEmpty = false →
      Orm.missingOf data ≠ [] →
      (Orm.create_event now (some data) st).status = 400 ∧
      (Orm.create_event now (some data) st).body =
        Resp.errJson (missingMsg (Orm.missingOf data)) ∧
      (Orm.create_event now (some data) st).state = st) ∧
    (∀ now st data,
      data.isEmpty = false →
      requiredFields.all (fun f => hasKey data f) = false →
      (RawSql.create_event now (some data) st).status = 400 ∧
      (RawSql.create_event now (some data) st).body =
        Resp.errJson rawMissingMsg ∧
      (RawSql.create_event now (some data) st).state = st) ∧
    (Orm.missingOf payloadNoLoc = ["location"] ∧
     (Orm.create_event now0 (some payloadNoLoc) emptyDB).body =
       Resp.errJson "Missing required fields: location") := by
  refine ⟨?_, ?_, rfl, rfl⟩
  · intro now st data hne hmiss
    unfold Orm.create_event
    rcases hm : Orm.missingOf data with _ | ⟨f, fs⟩
    · exact absurd hm hmiss
    · simp [hne, hm]
  · intro now st data hne hall
    unfold RawSql.create_event
    simp [hne, hall]

/-- C6 witness: the missing-fields theorem applied to the payload missing
only location, in both variants. -/
theorem C6_witness :
    ((Orm.create_event now0 (some payloadNoLoc) emptyDB).status = 400 ∧
     (Orm.create_event now0 (some payloadNoLoc) emptyDB).body =
       Resp.errJson (missingMsg (Orm.missingOf payloadNoLoc)) ∧
     (Orm.create_event now0 (some payloadNoLoc) emptyDB).state = emptyDB) ∧
    ((RawSql.create_event now0 (some payloadNoLoc) emptyDB).status = 400 ∧
     (RawSql.create_event now0 (some payloadNoLoc) emptyDB).body =
       Resp.errJson rawMissingMsg ∧
     (RawSql.create_event now0 (some payloadNoLoc) emptyDB).state =
       emptyDB) :=
  ⟨C6_missing_fields.1 now0 emptyDB payloadNoLoc rfl (by decide),
   C6_missing_fields.2.1 now0 emptyDB payloadNoLoc rfl rfl⟩

/-- C7 counterexample: for an update that restates the stored title, the
ORM variant returns the ordinary success response, the same shape and
message as a genuinely changing update, so it signals no distinguishable
NoChange outcome; only the raw-SQL variant answers with the distinct
no-change message. -/
theorem C7_counterexample :
    (Orm.update_event 1 (some bodySameTitle) st1).status = 200 ∧
    (Orm.update_event 1 (some bodySameTitle) st1).body =
      Resp.updatedJson updatedMsg 1 (Orm.to_dict row1) ∧
    (Orm.update_event 1 (some bodyNewTitle) st1).body =
      Resp.updatedJson updatedMsg 1
        (Orm.to_dict { row1 with title := some "Liftoff" }) ∧
    (RawSql.update_event 1 (some bodySameTitle) st1).body =
      Resp.msgJson noChangeMsg :=
  ⟨rfl, rfl, rfl, rfl⟩

/-- C7 amended: when the merged values equal the stored row, the raw-SQL
variant signals the distinct no-change outcome (status 200, the no-change
message, table unchanged), while the ORM variant returns the ordinary
success response carrying the unchanged record. -/
theorem C7_no_change_outcome :
    (∀ st id e data d0,
      findRow st id = some e →
      e.event_date = some d0 →
      ValidDate d0 →
      data.isEmpty = false →
      RawSql.updateVars data e d0 =
        { title := e.title, description := e.description,
          event_date := some (formatDateTime d0), location := e.location } →
      e.title.isSome = true →
      e.location.isSome = true →
      (RawSql.update_event id (some data) st).status = 200 ∧
      (RawSql.update_event id (some data) st).body =
        Resp.msgJson noChangeMsg ∧
      (RawSql.update_event id (some data) st).state = st) ∧
    (∀ st id e data,
      findRow st id = some e →
      data.isEmpty = false →
      Orm.mergeFields data e = Orm.MergeOut.ok e →
      rowNullFree e = true →
      (Orm.update_event id (some data) st).status = 200 ∧
      (Orm.update_event id (some data) st).body =
        Resp.updatedJson updatedMsg e.id (Orm.to_dict e)) := by
  constructor
  · intro st id e data d0 he hd0 hvd hne hv ht hl
    have hnr : RawSql.mergedRow data e d0 d0 = e := by
      unfold RawSql.mergedRow
      rw [hv, ← hd0]
    unfold RawSql.update_event
    rw [he]
    simp [hne, hd0, hv, mysql_roundtrip d0 hvd, ht, hl, hnr]
  · intro st id e data he hne hm hnf
    unfold Orm.update_event
    rw [he]
    simp [hne, hm, hnf]

/-- C7 witness: the no-change theorem applied to the sample table and the
body restating the stored title, in both variants. -/
theorem C7_witness :
    ((RawSql.update_event 1 (some bodySameTitle) st1).status = 200 ∧
     (RawSql.update_event 1 (some bodySameTitle) st1).body =
       Resp.msgJson noChangeMsg ∧
     (RawSql.update_event 1 (some bodySameTitle) st1).state = st1) ∧
    ((Orm.update_event 1 (some bodySameTitle) st1).status = 200 ∧
     (Orm.update_event 1 (some bodySameTitle) st1).body =
       Resp.updatedJson updatedMsg row1.id (Orm.to_dict row1)) :=
  ⟨C7_no_change_outcome.1 st1 1 row1 bodySameTitle dt0 rfl rfl (by decide)
      rfl rfl rfl rfl,
   C7_no_change_outcome.2 st1 1 row1 bodySameTitle rfl rfl rfl rfl⟩

/-- C8 counterexample: an update of an existing event with an empty body
ends in a validation error (HTTP 400, error key), yet the trace of storage
operations already contains the existence read, so the validation error is
not detected before every storage call. -/
theorem C8_counterexample :
    (Orm.update_event 1 (some []) st1).status = 400 ∧
    (Orm.update_event 1 (some []) st1).body = Resp.errJson invalidJsonMsg ∧
    (Orm.update_event 1 (some []) st1).trace = [StorageOp.read] :=
  ⟨rfl, rfl, rfl⟩

/-- C8 amended: in both variants, no storage write occurs on any execution
that ends in a 400 validation error, and on Create no storage call at all
precedes validation (the trace of a 400 create is empty); on Update the
existence read precedes body validation, so only a read can appear in such
a trace. -/
theorem C8_validation_before_writes :
    (∀ now req st, (Orm.create_event now req st).status = 400 →
      (Orm.create_event now req st).trace = []) ∧
    (∀ now req st, (RawSql.create_event now req st).status = 400 →
      (RawSql.create_event now req st).trace = []) ∧
    (∀ id req st, (Orm.update_event id req st).status = 400 →
      StorageOp.write ∉ (Orm.update_event id req st).trace) ∧
    (∀ id req st, (RawSql.update_event id req st).status = 400 →
      StorageOp.write ∉ (RawSql.update_event id req st).trace) := by
  refine ⟨?_, ?_, ?_, ?_⟩
  · intro now req st
    unfold Orm.create_event
    repeat' split
    all_goals intro h
    all_goals simp at h ⊢
  · intro now req st
    unfold RawSql.create_event
    repeat' split
    all_goals intro h
    all_goals simp at h ⊢
  · intro id req st
    unfold Orm.update_event
    repeat' split
    all_goals intro h
    all_goals simp at h ⊢
  · intro id req st
    unfold RawSql.update_event
    repeat' split
    all_goals intro h
    all_goals simp at h ⊢

/-- C8 witness: the theorem applied to 400-producing concrete requests of
every handler it covers. -/
theorem C8_witness :
    (Orm.create_event now0 (some payloadNoLoc) emptyDB).trace = [] ∧
    (RawSql.create_event now0 (some payloadNoLoc) emptyDB).trace = [] ∧
    StorageOp.write ∉ (Orm.update_event 1 (some []) st1).trace ∧
    StorageOp.write ∉ (RawSql.update_event 1 (some []) st1).trace :=
  ⟨C8_validation_before_writes.1 now0 (some payloadNoLoc) emptyDB rfl,
   C8_validation_before_writes.2.1 now0 (some payloadNoLoc) emptyDB rfl,
   C8_validation_before_writes.2.2.1 1 (some []) st1 rfl,
   C8_validation_before_writes.2.2.2 1 (some []) st1 rfl⟩

/-- C9: starting from the empty table, every handler of both variants
preserves the invariant that each stored row has a non-null title, a
non-null event_date and a non-null location (the NOT NULL constraints of
the schema). -/
theorem C9_not_null_invariant :
    StateOk emptyDB ∧
    (∀ now req st, StateOk st → StateOk (Orm.create_event now req st).state) ∧
    (∀ id req st, StateOk st → StateOk (Orm.update_event id req st).state) ∧
    (∀ id st, StateOk st → StateOk (Orm.delete_event id st).state) ∧
    (∀ st, StateOk st → StateOk (Orm.get_all_events st).state) ∧
    (∀ id st, StateOk st → StateOk (Orm.get_single_event id st).state) ∧
    (∀ now req st, StateOk st →
      StateOk (RawSql.create_event now req st).state) ∧
    (∀ id req st, StateOk st →
      StateOk (RawSql.update_event id req st).state) ∧
    (∀ id st, StateOk st → StateOk (RawSql.delete_event id st).state) ∧
    (∀ st, StateOk st → StateOk (RawSql.get_all_events st).state) ∧
    (∀ id st, StateOk st → StateOk (RawSql.get_single_event id st).state) := by
  refine ⟨?_, ?_, ?_, ?_, ?_, ?_, ?_, ?_, ?_, ?_, ?_⟩
  · intro r hr
    simp [emptyDB] at hr
  · intro now req st h
    unfold Orm.create_event
    repeat' split
    all_goals first
      | exact h
      | exact StateOk_append h (by assumption)
  · intro id req st h
    unfold Orm.update_event
    repeat' split
    all_goals first
      | exact h
      | exact StateOk_replace h (by assumption)
  · intro id st h
    unfold Orm.delete_event
    repeat' split
    all_goals first
      | exact h
      | exact StateOk_filter h
  · intro st h
    exact h
  · intro id st h
    unfold Orm.get_single_event
    repeat' split
    all_goals exact h
  · intro now req st h
    unfold RawSql.create_event
    repeat' split
    all_goals first
      | exact h
      | exact StateOk_append h (by simp only [rowNullFree, rowOf]; simp_all)
  · intro id req st h
    unfold RawSql.update_event
    repeat' split
    all_goals first
      | exact h
      | exact StateOk_replace h
          (by simp only [rowNullFree, RawSql.mergedRow]; simp_all)
  · intro id st h
    unfold RawSql.delete_event
    repeat' split
    all_goals first
      | exact h
      | exact StateOk_filter h
  · intro st h
    exact h
  · intro id st h
    unfold RawSql.get_single_event
    repeat' split
    all_goals exact h

/-- C9 witness: the invariant theorem applied to every handler at concrete
inputs, starting from the empty table or the sample one-row table. -/
theorem C9_witness :
    StateOk (Orm.create_event now0 (some payload0) emptyDB).state ∧
    StateOk (Orm.update_event 1 (some bodyNewTitle) st1).state ∧
    StateOk (Orm.delete_event 1 st1).state ∧
    StateOk (Orm.get_all_events st1).state ∧
    StateOk (Orm.get_single_event 1 st1).state ∧
    StateOk (RawSql.create_event now0 (some payload0) emptyDB).state ∧
    StateOk (RawSql.update_event 1 (some bodyNewTitle) st1).state ∧
    StateOk (RawSql.delete_event 1 st1).state ∧
    StateOk (RawSql.get_all_events st1).state ∧
    StateOk (RawSql.get_single_event 1 st1).state := by
  have h0 : StateOk emptyDB := C9_not_null_invariant.1
  have h1 : StateOk st1 := by
    intro r hr
    simp [st1] at hr
    subst hr
    rfl
  exact ⟨C9_not_null_invariant.2.1 now0 (some payload0) emptyDB h0,
    C9_not_null_invariant.2.2.1 1 (some bodyNewTitle) st1 h1,
    C9_not_null_invariant.2.2.2.1 1 st1 h1,
    C9_not_null_invariant.2.2.2.2.1 st1 h1,
    C9_not_null_invariant.2.2.2.2.2.1 1 st1 h1,
    C9_not_null_invariant.2.2.2.2.2.2.1 now0 (some payload0) emptyDB h0,
    C9_not_null_invariant.2.2.2.2.2.2.2.1 1 (some bodyNewTitle) st1 h1,
    C9_not_null_invariant.2.2.2.2.2.2.2.2.1 1 st1 h1,
    C9_not_null_invariant.2.2.2.2.2.2.2.2.2.1 st1 h1,
    C9_not_null_invariant.2.2.2.2.2.2.2.2.2.2 1 st1 h1⟩

/-- C10: for an existing event id, a PUT whose body is the empty JSON
object is rejected with HTTP 400 and treated exactly like an absent body
(the whole outcome coincides with the absent-body outcome), in both
variants, because the empty dict is falsy in the shared body check. -/
theorem C10_empty_object_body (st : DBState) (id : Nat) (e : EventRow)
    (he : findRow st id = some e) :
    (Orm.update_event id (some []) st).status = 400 ∧
    (Orm.update_event id (some []) st) = (Orm.update_event id none st) ∧
    (RawSql.update_event id (some []) st).status = 400 ∧
    (RawSql.update_event id (some []) st) =
      (RawSql.update_event id none st) := by
  unfold Orm.update_event RawSql.update_event
  rw [he]
  simp

/-- C10 witness: the empty-object theorem applied to the sample table at
the existing id 1. -/
theorem C10_witness :
    (Orm.update_event 1 (some []) st1).status = 400 ∧
    (Orm.update_event 1 (some []) st1) = (Orm.update_event 1 none st1) ∧
    (RawSql.update_event 1 (some []) st1).status = 400 ∧
    (RawSql.update_event 1 (some []) st1) =
      (RawSql.update_event 1 none st1) :=
  C10_empty_object_body st1 1 row1 rfl

end EventsApi
